import Mathlib

/-!
Verification of the SupplyChainCropTracking ml-service against its
natural-language specification.

The development shallowly embeds the two deterministic cores of the
repository:

* `ml-service/api/predict.py`: the rule-based fallback price formula
  (`get_fallback_prediction`), input validation (`validate_input`) and the
  request handler (`predict_price_route`);
* `ml-service/data/validate_data.py`: the `DataValidator` cleaning checks
  (missing-value imputation, duplicate removal, quantity range check,
  categorical membership check, IQR price-outlier rejection) and their
  composition in `DataValidator.validate`.

Numeric values are modelled as exact rationals (`ℚ`); Python `float`
arithmetic on the magnitudes involved is modelled exactly by rational
arithmetic for every claim below (no claim depends on binary rounding of
IEEE doubles).  A missing cell of the pandas frame (NaN) is modelled as
`none`; pandas comparisons against NaN are `False`, which the embedding
reproduces by explicit `Option` matches.
-/

namespace CropTrack

/-! ## Fallback pricing (`ml-service/api/predict.py`, `get_fallback_prediction`) -/

/-- Feature dictionary produced by `prepare_features` / consumed by
`get_fallback_prediction`.  A field is `none` when the corresponding key is
absent from the Python dict. -/
structure Features where
  crop_type : Option String
  quality : Option String
  region : Option String
  season : Option String
  weather : Option String
  market_demand : Option String
  quantity_kg : Option ℚ
  year : Option Int
  month : Option Int
deriving DecidableEq

/-- The `base_prices` dict of `get_fallback_prediction`. -/
def base_prices : String → Option ℚ
  | "Wheat" => some 45
  | "Rice" => some 65
  | "Corn" => some 35
  | "Pulses" => some 85
  | "Vegetables" => some 32
  | "Fruits" => some 55
  | "Sugarcane" => some 40
  | "Cotton" => some 60
  | "Soybean" => some 50
  | _ => none

/-- The `quality_multiplier` dict. -/
def quality_multiplier : String → Option ℚ
  | "Premium" => some (12/10)
  | "Grade_A" => some 1
  | "Grade_B" => some (8/10)
  | "Grade_C" => some (6/10)
  | _ => none

/-- The `region_multiplier` dict. -/
def region_multiplier : String → Option ℚ
  | "North" => some 1
  | "South" => some (105/100)
  | "East" => some (95/100)
  | "West" => some (102/100)
  | _ => none

/-- The `season_multiplier` dict. -/
def season_multiplier : String → Option ℚ
  | "Winter" => some 1
  | "Spring" => some (11/10)
  | "Summer" => some (95/100)
  | "Autumn" => some (105/100)
  | _ => none

/-- Python `round(x, 2)` on exact rationals: round to the nearest multiple
of `1/100` (ties rounded up; the tie-break is irrelevant to every claim,
since each claim applies the same rounding on both sides). -/
def round2 (x : ℚ) : ℚ := (round (x * 100) : ℚ) / 100

/-- Embedding of `get_fallback_prediction` (predict.py lines 6-65),
mirroring the Python statement by statement: dict lookups with defaults,
sequential multiplications, the `if quantity > 5000 / elif quantity > 2000`
bulk discount, and the final `round(price, 2)`. -/
def get_fallback_prediction (features : Features) : ℚ :=
  let crop_type := features.crop_type.getD "Wheat"
  let quality := features.quality.getD "Grade_A"
  let quantity := features.quantity_kg.getD 1000
  let base_price := (base_prices crop_type).getD 40
  let region := features.region.getD "North"
  let season := features.season.getD "Winter"
  let price := base_price
  let price := price * (quality_multiplier quality).getD 1
  let price := price * (region_multiplier region).getD 1
  let price := price * (season_multiplier season).getD 1
  let price :=
    if quantity > 5000 then price * (9/10)
    else if quantity > 2000 then price * (95/100)
    else price
  round2 price

/-- Bulk-discount factor described by spec step 5: ×0.90 above 5000 kg,
×0.95 on (2000, 5000], ×1.0 otherwise. -/
def bulkFactor (quantity : ℚ) : ℚ :=
  if quantity > 5000 then 9/10
  else if quantity > 2000 then 95/100
  else 1

/-- Price before the bulk discount: base price times the three multipliers
(spec steps 1-4; the value of the Python variable `price` after line 57). -/
def preDiscountPrice (features : Features) : ℚ :=
  ((base_prices (features.crop_type.getD "Wheat")).getD 40)
    * ((quality_multiplier (features.quality.getD "Grade_A")).getD 1)
    * ((region_multiplier (features.region.getD "North")).getD 1)
    * ((season_multiplier (features.season.getD "Winter")).getD 1)

/-! ## Request handling (`ml-service/api/predict.py`, `validate_input` and
`predict_price_route`)

A request body is modelled as `Option Body` where `Body` is a JSON object
(association list of keys to JSON values); `none` models a body on which
`request.get_json()` returns `None` (JSON `null` / no data).  Non-object
JSON bodies (bare numbers, arrays) are outside the model. -/

/-- JSON values as far as the prediction endpoint inspects them.  Array and
object values are collapsed to markers: the handler never looks inside
them (Python `float()` raises `TypeError` on both). -/
inductive JsonVal where
  | jnum (q : ℚ)
  | jstr (s : String)
  | jbool (b : Bool)
  | jnull
  | jarr
  | jobj
deriving DecidableEq

/-- Natural-number value of a digit string (most significant first). -/
def natOfDigits (cs : List Char) : ℕ :=
  cs.foldl (fun a c => 10 * a + (c.toNat - 48)) 0

/-- Modelled from Python `float(str)` restricted to unsigned decimal
literals: digits, optionally followed by a point and digits, at least one
digit in total.  Exponents, `inf` and `nan` are outside the model; no
claim depends on them. -/
def parseUnsignedFloat (cs : List Char) : Option ℚ :=
  let intPart := cs.takeWhile (·.isDigit)
  let rest := cs.dropWhile (·.isDigit)
  match rest with
  | [] => if intPart.isEmpty then none else some (natOfDigits intPart)
  | '.' :: frac =>
    if frac.all (·.isDigit) && !(intPart.isEmpty && frac.isEmpty) then
      some ((natOfDigits intPart : ℚ) + (natOfDigits frac : ℚ) / 10 ^ frac.length)
    else none
  | _ => none

/-- Python `float(str)`: strip whitespace, optional sign, decimal literal. -/
def pyFloatOfString (s : String) : Option ℚ :=
  match s.trim.toList with
  | '+' :: cs => parseUnsignedFloat cs
  | '-' :: cs => (parseUnsignedFloat cs).map (fun q => -q)
  | cs => parseUnsignedFloat cs

/-- Python `float(v)` on a JSON value: numbers convert to themselves,
booleans to 0/1, strings via literal parsing; `None`, lists and dicts
raise (`TypeError`), modelled as `none`. -/
def pyFloat : JsonVal → Option ℚ
  | .jnum q => some q
  | .jstr s => pyFloatOfString s
  | .jbool b => some (if b then 1 else 0)
  | .jnull => none
  | .jarr => none
  | .jobj => none

/-- A JSON object body: keys with their values (dict keys are unique; only
the first binding of a key is consulted). -/
def Body : Type := List (String × JsonVal)

instance : DecidableEq Body := by unfold Body; infer_instance

/-- Python `data[k]` / `k in data` lookup. -/
def lookupField (data : Body) (k : String) : Option JsonVal :=
  (data.find? (fun kv => kv.1 == k)).map (fun kv => kv.2)

/-- The `required_fields` list of `validate_input`. -/
def required_fields : List String := ["crop_type", "region", "quality", "quantity_kg"]

/-- Embedding of `validate_input` (predict.py lines 67-82): reject when a
required field is absent, when `float(data[quantity_kg])` raises, or when
the converted quantity is ≤ 0. -/
def validate_input (data : Body) : Bool × String :=
  let missing_fields := required_fields.filter (fun k => (lookupField data k).isNone)
  if missing_fields.isEmpty then
    match (lookupField data "quantity_kg").bind pyFloat with
    | none => (false, "Quantity must be a number")
    | some q => if q ≤ 0 then (false, "Quantity must be positive") else (true, "Valid")
  else (false, "Missing required fields")

/-- Status code and `success` flag of a handler response. -/
structure HttpResponse where
  status : ℕ
  success : Bool
deriving DecidableEq

/-- Embedding of `predict_price_route` (predict.py lines 115-185).  `none`
or an empty object is rejected up front (`if not data`); then
`validate_input` gates the prediction.  Once validation passes the handler
always answers 200 with `success: true`: a failing ML model is caught and
replaced by `get_fallback_prediction`, which is total. -/
def predict_price_route (body : Option Body) : HttpResponse :=
  match body with
  | none => ⟨400, false⟩
  | some data =>
    if data.isEmpty then ⟨400, false⟩
    else
      match validate_input data with
      | (true, _) => ⟨200, true⟩
      | (false, _) => ⟨400, false⟩

/-! ## Data validation (`ml-service/data/validate_data.py`, `DataValidator`)

The training frame is modelled as a `List Row` over the dataset's schema
(the column order of `generate_training_data.py`: `date`, `crop_type`,
`region`, `quality`, `quantity_kg`, `market_price`, `season`, `weather`,
`market_demand`, `source`).  A `none` cell is a pandas `NaN`/missing
value; pandas comparisons and `isin` on `NaN` are `False`, reproduced
below by explicit `Option` matches.  Statistics (`median`, `mode`,
`quantile`) are computed over a column's non-missing entries, as pandas
does. -/

/-- One record of the training frame. -/
structure Row where
  date : Option String
  crop_type : Option String
  region : Option String
  quality : Option String
  quantity_kg : Option ℚ
  market_price : Option ℚ
  season : Option String
  weather : Option String
  market_demand : Option String
  source : Option String
deriving DecidableEq

/-- Pick the better of two mode candidates: higher count wins, ties go to
the smaller value (pandas `Series.mode()` is sorted ascending, so
`mode()[0]` is the smallest most-frequent value). -/
def modePick {α} [LinearOrder α] [DecidableEq α] (l : List α) (x b : α) : α :=
  if l.count x > l.count b ∨ (l.count x = l.count b ∧ x < b) then x else b

/-- Pandas `Series.mode()[0]` over the listed values: the smallest value of
maximal multiplicity, `none` on the empty list (where `mode()[0]` raises
`IndexError`). -/
def modeOf {α} [LinearOrder α] [DecidableEq α] (l : List α) : Option α :=
  l.dedup.foldl
    (fun acc x =>
      match acc with
      | none => some x
      | some b => some (modePick l x b))
    none

/-- Insert into a sorted list (ascending). -/
def insertSorted (x : ℚ) : List ℚ → List ℚ
  | [] => [x]
  | y :: ys => if x ≤ y then x :: y :: ys else y :: insertSorted x ys

/-- Insertion sort, ascending. -/
def sortQ (l : List ℚ) : List ℚ := l.foldr insertSorted []

/-- Pandas `Series.median()` over the listed values: middle element of the
sorted list, or the mean of the two middle elements; `none` (NaN) on the
empty list. -/
def medianOf (l : List ℚ) : Option ℚ :=
  let s := sortQ l
  let n := s.length
  if n = 0 then none
  else if n % 2 = 1 then some (s.getD (n / 2) 0)
  else some ((s.getD (n / 2 - 1) 0 + s.getD (n / 2) 0) / 2)

/-- Pandas `Series.quantile(q)` with the default linear interpolation over
the listed values: at fractional position `h = (n-1)q` of the sorted list,
interpolate between the neighbouring elements; `none` (NaN) on the empty
list. -/
def quantileOf (l : List ℚ) (q : ℚ) : Option ℚ :=
  let s := sortQ l
  let n := s.length
  if n = 0 then none
  else
    let h : ℚ := ((n : ℚ) - 1) * q
    let i : ℕ := (⌊h⌋).toNat
    let lo := s.getD i 0
    let hi := s.getD (min (i + 1) (n - 1)) 0
    some (lo + (h - (i : ℚ)) * (hi - lo))

/-- Fill a row's cell with `v` when the cell is missing (`Series.fillna`
applied to one row of one column, where `get`/`set` select the column). -/
def fillRow {γ} (get : Row → Option γ) (set : Row → γ → Row) (v : γ) (r : Row) : Row :=
  if (get r).isSome then r else set r v

/-- The `check_missing_values` handling of one mode-imputed column
(validate_data.py lines 45-54, `else` branch): nothing happens when the
column has no missing value; otherwise every missing cell is filled with
`df[col].mode()[0]`, and `none` models the `IndexError` raised by
`mode()[0]` when the column has no non-missing entry at all. -/
def fillModeCol {α} [LinearOrder α] [DecidableEq α] (get : Row → Option α)
    (set : Row → α → Row) (df : List Row) : Option (List Row) :=
  if df.all (fun r => (get r).isSome) then some df
  else
    match modeOf (df.filterMap get) with
    | none => none
    | some m => some (df.map (fillRow get set m))

/-- The `check_missing_values` handling of the `market_price` column
(median imputation; `fillna(NaN)` on an all-missing column leaves it
unchanged). -/
def fillMedianPrice (df : List Row) : List Row :=
  if df.all (fun r => r.market_price.isSome) then df
  else
    match medianOf (df.filterMap (fun r => r.market_price)) with
    | none => df
    | some m => df.map (fillRow (fun r => r.market_price) (fun r v => { r with market_price := some v }) m)

/-- The `check_missing_values` handling of `weather`, `market_demand` and
`season`: missing cells become the literal string `Unknown`. -/
def fillUnknownCol (get : Row → Option String) (set : Row → String → Row)
    (df : List Row) : List Row :=
  if df.all (fun r => (get r).isSome) then df
  else df.map (fillRow get set "Unknown")

/-- Embedding of `DataValidator.check_missing_values` (lines 37-60).  The
Python loop visits the frame's columns in header order and touches each
column at most once; the imputation of one column neither reads nor writes
any other column, so the loop is modelled as one pass per column, in
header order.  Each column's median/mode is computed over that column's
non-missing entries (pandas skips NaN). -/
def checkMissingValues (df : List Row) : Option (List Row) := do
  let df ← fillModeCol (fun r => r.date) (fun r v => { r with date := some v }) df
  let df ← fillModeCol (fun r => r.crop_type) (fun r v => { r with crop_type := some v }) df
  let df ← fillModeCol (fun r => r.region) (fun r v => { r with region := some v }) df
  let df ← fillModeCol (fun r => r.quality) (fun r v => { r with quality := some v }) df
  let df ← fillModeCol (fun r => r.quantity_kg) (fun r v => { r with quantity_kg := some v }) df
  let df := fillMedianPrice df
  let df := fillUnknownCol (fun r => r.season) (fun r v => { r with season := some v }) df
  let df := fillUnknownCol (fun r => r.weather) (fun r v => { r with weather := some v }) df
  let df := fillUnknownCol (fun r => r.market_demand) (fun r v => { r with market_demand := some v }) df
  let df ← fillModeCol (fun r => r.source) (fun r v => { r with source := some v }) df
  pure df

/-- First-occurrence duplicate removal (`DataFrame.drop_duplicates`): keep
a row when it has not been seen before. -/
def dropDupsFrom (seen : List Row) : List Row → List Row
  | [] => []
  | r :: rs => if r ∈ seen then dropDupsFrom seen rs else r :: dropDupsFrom (r :: seen) rs

/-- Embedding of `DataValidator.check_duplicates` (lines 62-79): when
`duplicated().sum()` is positive, `drop_duplicates` keeps the first
occurrence of every row; otherwise the frame is untouched. -/
def checkDuplicates (df : List Row) : List Row :=
  if df.Nodup then df else dropDupsFrom [] df

/-- The `invalid` mask of `check_quantity_validity`:
`(quantity_kg <= 0) | (quantity_kg > 100000)`, `False` on missing cells
(pandas comparisons with NaN). -/
def quantityInvalid (r : Row) : Bool :=
  match r.quantity_kg with
  | none => false
  | some q => decide (q ≤ 0) || decide (q > 100000)

/-- Embedding of `DataValidator.check_quantity_validity` (lines 116-133):
drop the rows of the `invalid` mask when there are any, otherwise leave
the frame untouched. -/
def checkQuantityValidity (df : List Row) : List Row :=
  if df.all (fun r => !quantityInvalid r) then df
  else df.filter (fun r => !quantityInvalid r)

/-- The `valid_values` vocabularies of `check_categorical_values`. -/
def valid_crop_types : List String :=
  ["Wheat", "Rice", "Corn", "Pulses", "Sugarcane", "Cotton", "Soybean",
   "Vegetables", "Fruits", "Spices"]

/-- Region vocabulary. -/
def valid_regions : List String :=
  ["North", "South", "East", "West", "Central", "Northeast"]

/-- Quality vocabulary. -/
def valid_qualities : List String := ["Premium", "Grade_A", "Grade_B", "Grade_C"]

/-- Season vocabulary. -/
def valid_seasons : List String := ["Winter", "Spring", "Summer", "Autumn", "Monsoon"]

/-- Market-demand vocabulary. -/
def valid_market_demands : List String :=
  ["Very High", "High", "Medium", "Low", "Very Low"]

/-- Pandas `Series.isin(vs)` on one cell: `False` for missing cells. -/
def isinVocab (c : Option String) (vs : List String) : Bool :=
  match c with
  | none => false
  | some v => vs.contains v

/-- One iteration of the `check_categorical_values` loop: drop the rows
whose cell in the selected column is outside the vocabulary, when there
are any; otherwise leave the frame untouched. -/
def catStep (get : Row → Option String) (vs : List String) (df : List Row) : List Row :=
  if df.all (fun r => isinVocab (get r) vs) then df
  else df.filter (fun r => isinVocab (get r) vs)

/-- Embedding of `DataValidator.check_categorical_values` (lines 135-163):
the loop visits the `valid_values` dict in insertion order (`crop_type`,
`region`, `quality`, `season`, `market_demand`); every listed column is
present in the dataset schema. -/
def checkCategoricalValues (df : List Row) : List Row :=
  catStep (fun r => r.market_demand) valid_market_demands
    (catStep (fun r => r.season) valid_seasons
      (catStep (fun r => r.quality) valid_qualities
        (catStep (fun r => r.region) valid_regions
          (catStep (fun r => r.crop_type) valid_crop_types df))))

/-- The non-missing prices of the frame (the values pandas aggregates
over). -/
def pricesOf (df : List Row) : List ℚ := df.filterMap (fun r => r.market_price)

/-- The `outliers` mask of `check_price_outliers`:
`(market_price < lower_bound) | (market_price > upper_bound)`, `False` on
missing cells. -/
def priceOutlier (lb ub : ℚ) (r : Row) : Bool :=
  match r.market_price with
  | none => false
  | some p => decide (p < lb) || decide (p > ub)

/-- Embedding of `DataValidator.check_price_outliers` (lines 81-114) with
its default arguments (IQR method, threshold 1.5), as `validate` calls it:
`Q1`/`Q3` are the quartiles of the current `market_price` column, rows
below `Q1 - 1.5*IQR` or above `Q3 + 1.5*IQR` are dropped when there are
any.  When the frame has no price at all, both quantiles are NaN, every
NaN comparison is `False`, and the frame is untouched. -/
def checkPriceOutliers (df : List Row) : List Row :=
  match quantileOf (pricesOf df) (1/4), quantileOf (pricesOf df) (3/4) with
  | some q1, some q3 =>
    let iqr := q3 - q1
    let lb := q1 - (3/2) * iqr
    let ub := q3 + (3/2) * iqr
    if df.all (fun r => !priceOutlier lb ub r) then df
    else df.filter (fun r => !priceOutlier lb ub r)
  | _, _ => df

/-- First quartile of the frame's price column (0 when there is no price;
that value is never consulted in that case). -/
def Q1Of (df : List Row) : ℚ := (quantileOf (pricesOf df) (1/4)).getD 0

/-- Third quartile of the frame's price column. -/
def Q3Of (df : List Row) : ℚ := (quantileOf (pricesOf df) (3/4)).getD 0

/-- Lower outlier bound `Q1 - 1.5*IQR`. -/
def lowerBoundOf (df : List Row) : ℚ := Q1Of df - (3/2) * (Q3Of df - Q1Of df)

/-- Upper outlier bound `Q3 + 1.5*IQR`. -/
def upperBoundOf (df : List Row) : ℚ := Q3Of df + (3/2) * (Q3Of df - Q1Of df)

/-- Embedding of the frame transformation of `DataValidator.validate`
(lines 227-243): the five cleaning checks in the order the code calls
them.  The trailing `check_data_distribution` never modifies the frame,
but on an empty frame it raises `ZeroDivisionError`
(`region_dist.min() / len(self.df)`), modelled by the final guard: a
pipeline that empties the frame crashes before the cleaned CSV is
written. -/
def validateClean (df : List Row) : Option (List Row) := do
  let df ← checkMissingValues df
  let df := checkDuplicates df
  let df := checkQuantityValidity df
  let df := checkCategoricalValues df
  let df := checkPriceOutliers df
  if df.isEmpty then none else some df

/-! ## Spec-side definitions

The following definitions transcribe claim sentences (not the code), to be
compared with the embeddings above. -/

/-- Mode imputation of one column as the claim words it: every missing
cell becomes the column's mode (no case split on whether the column has
missing values at all; when the column has no non-missing entry its mode
does not exist and the cells are left alone — that situation is excluded
by `modeAvailable` wherever it matters). -/
def specFillMode {α} [LinearOrder α] [DecidableEq α] (get : Row → Option α)
    (set : Row → α → Row) (df : List Row) : List Row :=
  match modeOf (df.filterMap get) with
  | none => df
  | some m => df.map (fillRow get set m)

/-- Median imputation of the price column as the claim words it. -/
def specFillMedian (df : List Row) : List Row :=
  match medianOf (df.filterMap (fun r => r.market_price)) with
  | none => df
  | some m => df.map (fillRow (fun r => r.market_price) (fun r v => { r with market_price := some v }) m)

/-- Literal `Unknown` imputation of one column as the claim words it. -/
def specFillUnknown (get : Row → Option String) (set : Row → String → Row)
    (df : List Row) : List Row :=
  df.map (fillRow get set "Unknown")

/-- Missing-value step as claim C3 words it: median for the numeric price
column, the literal `Unknown` for `weather`/`market_demand`/`season`, the
mode for the categorical (string) columns, and **no** imputation rule for
any other column — in particular none for the numeric `quantity_kg`. -/
def claimImputeMissing (df : List Row) : List Row :=
  specFillMode (fun r => r.source) (fun r v => { r with source := some v })
    (specFillUnknown (fun r => r.market_demand) (fun r v => { r with market_demand := some v })
      (specFillUnknown (fun r => r.weather) (fun r v => { r with weather := some v })
        (specFillUnknown (fun r => r.season) (fun r v => { r with season := some v })
          (specFillMedian
            (specFillMode (fun r => r.quality) (fun r v => { r with quality := some v })
              (specFillMode (fun r => r.region) (fun r v => { r with region := some v })
                (specFillMode (fun r => r.crop_type) (fun r v => { r with crop_type := some v })
                  (specFillMode (fun r => r.date) (fun r v => { r with date := some v }) df))))))))

/-- Missing-value step as amended: identical to `claimImputeMissing`
except that the mode rule also covers the remaining non-categorical
columns (`quantity_kg`). -/
def amendedImputeMissing (df : List Row) : List Row :=
  specFillMode (fun r => r.source) (fun r v => { r with source := some v })
    (specFillUnknown (fun r => r.market_demand) (fun r v => { r with market_demand := some v })
      (specFillUnknown (fun r => r.weather) (fun r v => { r with weather := some v })
        (specFillUnknown (fun r => r.season) (fun r v => { r with season := some v })
          (specFillMedian
            (specFillMode (fun r => r.quantity_kg) (fun r v => { r with quantity_kg := some v })
              (specFillMode (fun r => r.quality) (fun r v => { r with quality := some v })
                (specFillMode (fun r => r.region) (fun r v => { r with region := some v })
                  (specFillMode (fun r => r.crop_type) (fun r v => { r with crop_type := some v })
                    (specFillMode (fun r => r.date) (fun r v => { r with date := some v }) df)))))))))

/-- A column's mode is available whenever it is needed: if the column has
a missing cell then it also has a non-missing cell (otherwise
`check_missing_values` raises `IndexError` on `mode()[0]`). -/
def modeAvailable {α} (get : Row → Option α) (df : List Row) : Prop :=
  df.any (fun r => (get r).isNone) = true → df.any (fun r => (get r).isSome) = true

/-- `modeAvailable` for every mode-imputed column of the schema. -/
def ModesAvailable (df : List Row) : Prop :=
  modeAvailable (fun r => r.date) df ∧
  modeAvailable (fun r => r.crop_type) df ∧
  modeAvailable (fun r => r.region) df ∧
  modeAvailable (fun r => r.quality) df ∧
  modeAvailable (fun r => r.quantity_kg) df ∧
  modeAvailable (fun r => r.source) df

instance {α} (get : Row → Option α) (df : List Row) :
    Decidable (modeAvailable get df) := by
  unfold modeAvailable
  infer_instance

instance (df : List Row) : Decidable (ModesAvailable df) := by
  unfold ModesAvailable
  infer_instance

/-- Pipeline in the order claim C5 transcribes from the specification:
missing values, duplicates, price outliers, quantity range, categorical
membership. -/
def specOrderClean (df : List Row) : Option (List Row) := do
  let df ← checkMissingValues df
  let df := checkDuplicates df
  let df := checkPriceOutliers df
  let df := checkQuantityValidity df
  let df := checkCategoricalValues df
  pure df

/-- A cell holds a vocabulary value (the condition under which
`check_categorical_values` keeps the row, as far as that column is
concerned). -/
def validVocab (c : Option String) (vs : List String) : Prop :=
  ∃ v, c = some v ∧ v ∈ vs

/-! ## Concrete test data

Concrete frames, features and request bodies used by the closed theorems
below. -/

/-- A record whose only missing cell is the numeric `quantity_kg`. -/
def rowQtyMissing : Row :=
  ⟨some "2024-01-01", some "Wheat", some "North", some "Grade_A", none, some 50,
    some "Winter", some "Sunny", some "Medium", some "generated"⟩

/-- A fully populated record with `quantity_kg = 700`. -/
def rowQty700 : Row :=
  ⟨some "2024-01-02", some "Wheat", some "North", some "Grade_A", some 700, some 50,
    some "Winter", some "Sunny", some "Medium", some "generated"⟩

/-- Two-record frame whose only missing value sits in `quantity_kg`. -/
def dfQty : List Row := [rowQtyMissing, rowQty700]

/-- A valid wheat record at price 50. -/
def wheatRow (d : String) (qty : ℚ) : Row :=
  ⟨some d, some "Wheat", some "North", some "Grade_A", some qty, some 50,
    some "Winter", some "Sunny", some "Medium", some "generated"⟩

/-- A valid rice record at price 100. -/
def rowP100 : Row :=
  ⟨some "2024-02-01", some "Rice", some "South", some "Premium", some 20, some 100,
    some "Spring", some "Rainy", some "High", some "generated"⟩

/-- A record with an out-of-vocabulary crop type and an extreme price. -/
def alienRow (d : String) (qty : ℚ) : Row :=
  ⟨some d, some "Alien", some "North", some "Grade_A", some qty, some 1000000,
    some "Winter", some "Sunny", some "Medium", some "generated"⟩

/-- A frame on which the order of the outlier check relative to the
categorical check changes the surviving rows: the two `Alien` records pull
the quartiles of the price column far up as long as they are present. -/
def dfOrder : List Row :=
  [wheatRow "2024-01-01" 10, wheatRow "2024-01-02" 11, wheatRow "2024-01-03" 12,
   wheatRow "2024-01-04" 13, wheatRow "2024-01-05" 14, rowP100,
   alienRow "2024-03-01" 10, alienRow "2024-03-02" 11]

/-- Two-record frame with prices 50 and 100 (both inside the IQR fences). -/
def dfPrices : List Row := [wheatRow "2024-01-01" 10, rowP100]

/-- A record whose only missing cell is `weather`. -/
def rowWeatherNone : Row :=
  ⟨some "2024-01-01", some "Wheat", some "North", some "Grade_A", some 700, some 50,
    some "Winter", none, some "Medium", some "generated"⟩

/-- A feature dict for a bulk rice delivery. -/
def fRice1 : Features :=
  ⟨some "Rice", some "Premium", some "South", some "Spring", some "Sunny",
    some "High", some 6000, some 2024, some 5⟩

/-- The same pricing-relevant entries as `fRice1`, with different
`weather`, `market_demand`, `year` and `month`. -/
def fRice2 : Features :=
  ⟨some "Rice", some "Premium", some "South", some "Spring", some "Rainy",
    some "Low", some 6000, some 1999, some 1⟩

/-- A request body that lacks `crop_type`, `quality` and `quantity_kg`. -/
def dMissing : Body := [("region", JsonVal.jstr "North")]

/-- A complete request body with a quantity far above the training-data
range bound. -/
def dBig : Body :=
  [("crop_type", JsonVal.jstr "Wheat"), ("region", JsonVal.jstr "North"),
   ("quality", JsonVal.jstr "Grade_A"), ("quantity_kg", JsonVal.jnum 200000)]

end CropTrack

/-! ## Supporting lemmas -/

namespace CropTrack

theorem fallback_eq_bulkFactor (f : Features) :
    get_fallback_prediction f =
      round2 (preDiscountPrice f * bulkFactor (f.quantity_kg.getD 1000)) := by
  simp only [get_fallback_prediction, preDiscountPrice, bulkFactor]
  split_ifs <;> ring_nf

theorem mem_guardFilter {p : Row → Bool} {df : List Row} {r : Row} :
    r ∈ (if df.all p then df else df.filter p) ↔ r ∈ df ∧ p r = true := by
  by_cases h : df.all p = true
  · simp only [if_pos h]
    exact ⟨fun hr => ⟨hr, List.all_eq_true.1 h r hr⟩, fun hr => hr.1⟩
  · simp only [if_neg h, List.mem_filter]

theorem mem_catStep {get : Row → Option String} {vs : List String} {df : List Row} {r : Row} :
    r ∈ catStep get vs df ↔ r ∈ df ∧ isinVocab (get r) vs = true := by
  unfold catStep; exact mem_guardFilter

theorem isinVocab_iff {c : Option String} {vs : List String} :
    isinVocab c vs = true ↔ validVocab c vs := by
  cases c <;> simp [isinVocab, validVocab]

theorem mem_checkCategoricalValues {df : List Row} {r : Row} :
    r ∈ checkCategoricalValues df ↔ r ∈ df ∧
      validVocab r.crop_type valid_crop_types ∧
      validVocab r.region valid_regions ∧
      validVocab r.quality valid_qualities ∧
      validVocab r.season valid_seasons ∧
      validVocab r.market_demand valid_market_demands := by
  unfold checkCategoricalValues
  simp only [mem_catStep, isinVocab_iff]
  tauto

theorem quantityValid_iff {r : Row} :
    (!quantityInvalid r) = true ↔ ∀ q, r.quantity_kg = some q → 0 < q ∧ q ≤ 100000 := by
  cases hq : r.quantity_kg with
  | none => simp [quantityInvalid, hq]
  | some q => simp [quantityInvalid, hq, not_lt, not_le, and_comm]

theorem mem_checkQuantityValidity {df : List Row} {r : Row} :
    r ∈ checkQuantityValidity df ↔ r ∈ df ∧
      ∀ q, r.quantity_kg = some q → 0 < q ∧ q ≤ 100000 := by
  unfold checkQuantityValidity
  rw [mem_guardFilter, quantityValid_iff]

theorem length_insertSorted (x : ℚ) (l : List ℚ) :
    (insertSorted x l).length = l.length + 1 := by
  induction l with
  | nil => rfl
  | cons y ys ih =>
    unfold insertSorted
    by_cases h : x ≤ y <;> simp [h, ih]

theorem length_sortQ (l : List ℚ) : (sortQ l).length = l.length := by
  induction l with
  | nil => rfl
  | cons x xs ih =>
    show (insertSorted x (sortQ xs)).length = xs.length + 1
    rw [length_insertSorted, ih]

theorem quantileOf_eq_none {l : List ℚ} {q : ℚ} (h : quantileOf l q = none) : l = [] := by
  unfold quantileOf at h
  by_cases hn : (sortQ l).length = 0
  · exact List.length_eq_zero.1 (by rw [length_sortQ] at hn; exact hn)
  · simp [hn] at h

theorem priceInBounds_iff {lb ub : ℚ} {r : Row} :
    (!priceOutlier lb ub r) = true ↔ ∀ p, r.market_price = some p → lb ≤ p ∧ p ≤ ub := by
  cases hp : r.market_price with
  | none => simp [priceOutlier, hp]
  | some p => simp [priceOutlier, hp, not_lt, not_le, and_comm]

theorem mem_checkPriceOutliers {df : List Row} {r : Row} :
    r ∈ checkPriceOutliers df ↔ r ∈ df ∧
      ∀ p, r.market_price = some p → lowerBoundOf df ≤ p ∧ p ≤ upperBoundOf df := by
  cases h1 : quantileOf (pricesOf df) (1/4) with
  | none =>
    have hnil : pricesOf df = [] := quantileOf_eq_none h1
    unfold checkPriceOutliers
    rw [h1]
    constructor
    · intro hr
      refine ⟨hr, fun p hp => absurd ?_ (List.not_mem_nil p)⟩
      rw [← hnil]
      exact List.mem_filterMap.2 ⟨r, hr, hp⟩
    · exact fun hr => hr.1
  | some q1 =>
    cases h3 : quantileOf (pricesOf df) (3/4) with
    | none =>
      have hnil : pricesOf df = [] := quantileOf_eq_none h3
      unfold checkPriceOutliers
      rw [h1, h3]
      constructor
      · intro hr
        refine ⟨hr, fun p hp => absurd ?_ (List.not_mem_nil p)⟩
        rw [← hnil]
        exact List.mem_filterMap.2 ⟨r, hr, hp⟩
      · exact fun hr => hr.1
    | some q3 =>
      have hlb : lowerBoundOf df = q1 - (3/2) * (q3 - q1) := by
        unfold lowerBoundOf Q1Of Q3Of; rw [h1, h3]; rfl
      have hub : upperBoundOf df = q3 + (3/2) * (q3 - q1) := by
        unfold upperBoundOf Q1Of Q3Of; rw [h1, h3]; rfl
      unfold checkPriceOutliers
      rw [h1, h3]
      simp only []
      rw [mem_guardFilter]
      rw [priceInBounds_iff, hlb, hub]

end CropTrack

namespace CropTrack

theorem foldl_modePick_isSome {α} [LinearOrder α] [DecidableEq α] (l : List α)
    (xs : List α) (b : α) :
    (xs.foldl
      (fun acc x =>
        match acc with
        | none => some x
        | some c => some (modePick l x c))
      (some b)).isSome = true := by
  induction xs generalizing b with
  | nil => rfl
  | cons x xs ih => simpa using ih (modePick l x b)

theorem modeOf_isSome {α} [LinearOrder α] [DecidableEq α] {l : List α} (h : l ≠ []) :
    (modeOf l).isSome = true := by
  have hd : l.dedup ≠ [] := by
    simpa [List.dedup_eq_nil] using h
  obtain ⟨y, ys, hys⟩ := List.exists_cons_of_ne_nil hd
  unfold modeOf
  rw [hys]
  simpa using foldl_modePick_isSome l ys y

theorem map_fillRow_id {γ} {get : Row → Option γ} {set : Row → γ → Row} {v : γ}
    {df : List Row} (h : ∀ r ∈ df, (get r).isSome = true) :
    df.map (fillRow get set v) = df := by
  induction df with
  | nil => rfl
  | cons r rs ih =>
    simp only [List.map_cons, List.cons.injEq]
    refine ⟨by simp [fillRow, h r (List.mem_cons_self r rs)],
      ih fun x hx => h x (List.mem_cons_of_mem r hx)⟩

theorem fillModeCol_eq_spec {α} [LinearOrder α] [DecidableEq α]
    (get : Row → Option α) (set : Row → α → Row) {df : List Row}
    (h : modeAvailable get df) :
    fillModeCol get set df = some (specFillMode get set df) := by
  unfold fillModeCol specFillMode
  by_cases hall : df.all (fun r => (get r).isSome) = true
  · rw [if_pos hall]
    cases hm : modeOf (df.filterMap get) with
    | none => rfl
    | some m =>
      show some df = some (df.map (fillRow get set m))
      rw [map_fillRow_id (List.all_eq_true.1 hall)]
  · rw [if_neg hall]
    have hmiss : df.any (fun r => (get r).isNone) = true := by
      rw [List.any_eq_true]
      rw [List.all_eq_true] at hall
      push_neg at hall
      obtain ⟨r, hr, hrn⟩ := hall
      have hnone := Option.not_isSome_iff_eq_none.1 hrn
      exact ⟨r, hr, by simp [hnone]⟩
    have hsome := h hmiss
    rw [List.any_eq_true] at hsome
    obtain ⟨r, hr, hrs⟩ := hsome
    obtain ⟨v, hv⟩ := Option.isSome_iff_exists.1 hrs
    have hne : df.filterMap get ≠ [] :=
      List.ne_nil_of_mem (List.mem_filterMap.2 ⟨r, hr, hv⟩)
    obtain ⟨m, hm⟩ := Option.isSome_iff_exists.1 (modeOf_isSome hne)
    rw [hm]

theorem fillMedianPrice_eq_spec (df : List Row) :
    fillMedianPrice df = specFillMedian df := by
  unfold fillMedianPrice specFillMedian
  by_cases hall : df.all (fun r => r.market_price.isSome) = true
  · rw [if_pos hall]
    cases hm : medianOf (df.filterMap fun r => r.market_price) with
    | none => rfl
    | some m =>
      show df = df.map (fillRow (fun r => r.market_price) (fun r v => { r with market_price := some v }) m)
      rw [map_fillRow_id (List.all_eq_true.1 hall)]
  · rw [if_neg hall]

theorem fillUnknownCol_eq_spec (get : Row → Option String) (set : Row → String → Row)
    (df : List Row) : fillUnknownCol get set df = specFillUnknown get set df := by
  unfold fillUnknownCol specFillUnknown
  by_cases hall : df.all (fun r => (get r).isSome) = true
  · rw [if_pos hall, map_fillRow_id (List.all_eq_true.1 hall)]
  · rw [if_neg hall]

theorem any_map_eq_of_preserve {α} {g : Row → Option α} {f : Row → Row}
    (hf : ∀ r, g (f r) = g r) (df : List Row) (p : Option α → Bool) :
    (df.map f).any (fun r => p (g r)) = df.any (fun r => p (g r)) := by
  induction df with
  | nil => rfl
  | cons r rs ih => simp [hf, ih]

theorem modeAvailable_map {α} {g : Row → Option α} {f : Row → Row}
    (hf : ∀ r, g (f r) = g r) {df : List Row} (h : modeAvailable g df) :
    modeAvailable g (df.map f) := by
  unfold modeAvailable at h ⊢
  rw [any_map_eq_of_preserve hf df (fun c => c.isNone),
    any_map_eq_of_preserve hf df (fun c => c.isSome)]
  exact h

theorem fillRow_preserve {α γ} {g : Row → Option α} {get : Row → Option γ}
    {set : Row → γ → Row} (hcomm : ∀ r v, g (set r v) = g r) (v : γ) (r : Row) :
    g (fillRow get set v r) = g r := by
  unfold fillRow
  by_cases h : (get r).isSome = true <;> simp [h, hcomm]

theorem modeAvailable_specFillMode {α γ} [LinearOrder γ] [DecidableEq γ]
    (g : Row → Option α) (get : Row → Option γ) (set : Row → γ → Row)
    (hcomm : ∀ r v, g (set r v) = g r) {df : List Row} (h : modeAvailable g df) :
    modeAvailable g (specFillMode get set df) := by
  unfold specFillMode
  cases modeOf (df.filterMap get) with
  | none => exact h
  | some m => exact modeAvailable_map (fillRow_preserve hcomm m) h

theorem modeAvailable_specFillMedian {α} (g : Row → Option α)
    (hcomm : ∀ (r : Row) (v : ℚ), g { r with market_price := some v } = g r)
    {df : List Row} (h : modeAvailable g df) :
    modeAvailable g (specFillMedian df) := by
  unfold specFillMedian
  cases medianOf (df.filterMap fun r => r.market_price) with
  | none => exact h
  | some m => exact modeAvailable_map (fillRow_preserve hcomm m) h

theorem modeAvailable_specFillUnknown {α} (g : Row → Option α)
    (get : Row → Option String) (set : Row → String → Row)
    (hcomm : ∀ r v, g (set r v) = g r) {df : List Row} (h : modeAvailable g df) :
    modeAvailable g (specFillUnknown get set df) :=
  modeAvailable_map (fillRow_preserve hcomm "Unknown") h

end CropTrack

namespace CropTrack

theorem route400_iff (data : Body) :
    predict_price_route (some data) = ⟨400, false⟩ ↔
      data = [] ∨
      (∃ k ∈ required_fields, lookupField data k = none) ∨
      (lookupField data "quantity_kg").bind pyFloat = none ∨
      (∃ q, (lookupField data "quantity_kg").bind pyFloat = some q ∧ q ≤ 0) := by
  simp only [predict_price_route, validate_input]
  by_cases hd : data.isEmpty
  · have : data = [] := List.isEmpty_iff.1 hd
    simp [this]
  · rw [if_neg hd]
    have hdne : ¬ data = [] := fun h => hd (by simp [h])
    by_cases hm : (required_fields.filter (fun k => (lookupField data k).isNone)).isEmpty
    · rw [if_pos hm]
      have hnomiss : ¬ ∃ k ∈ required_fields, lookupField data k = none := by
        rintro ⟨k, hk, hkn⟩
        rw [List.isEmpty_iff] at hm
        have : k ∈ required_fields.filter (fun k => (lookupField data k).isNone) :=
          List.mem_filter.2 ⟨hk, by simp [hkn]⟩
        rw [hm] at this
        exact absurd this (List.not_mem_nil k)
      cases hq : (lookupField data "quantity_kg").bind pyFloat with
      | none => simp [hdne, hnomiss, hq]
      | some q =>
        by_cases hq0 : q ≤ 0
        · constructor
          · intro _
            exact Or.inr (Or.inr (Or.inr ⟨q, rfl, hq0⟩))
          · intro _
            simp [hq0]
        · constructor
          · intro h
            exfalso
            simp [hq0] at h
          · rintro (h | h | h | ⟨q2, hq2, hq20⟩)
            · exact absurd h hdne
            · exact absurd h hnomiss
            · exact absurd h (by simp)
            · rw [Option.some_inj] at hq2
              exact absurd (hq2 ▸ hq20) hq0
    · rw [if_neg hm]
      have hne2 : required_fields.filter (fun k => (lookupField data k).isNone) ≠ [] := by
        intro h
        exact hm (by simp [h])
      have hmiss : ∃ k ∈ required_fields, lookupField data k = none := by
        rcases List.exists_cons_of_ne_nil hne2 with ⟨k, ks, hks⟩
        have hkmem : k ∈ required_fields.filter (fun k => (lookupField data k).isNone) := by
          rw [hks]
          exact List.mem_cons_self k ks
        have := List.mem_filter.1 hkmem
        exact ⟨k, this.1, by simpa [Option.isNone_iff_eq_none] using this.2⟩
      simp [hmiss]

theorem route_accepts (data : Body) (q : ℚ)
    (hall : ∀ k ∈ required_fields, (lookupField data k).isSome = true)
    (hq : (lookupField data "quantity_kg").bind pyFloat = some q)
    (hq0 : 0 < q) :
    predict_price_route (some data) = ⟨200, true⟩ := by
  have hdne : data ≠ [] := by
    intro h
    have := hall "crop_type" (by decide)
    rw [h] at this
    simp [lookupField] at this
  simp only [predict_price_route, validate_input]
  rw [if_neg (by simpa [List.isEmpty_iff] using hdne)]
  have hm : (required_fields.filter (fun k => (lookupField data k).isNone)).isEmpty = true := by
    rw [List.isEmpty_iff, List.filter_eq_nil_iff]
    intro k hk
    simp [Option.isNone_iff_eq_none, Option.isSome_iff_ne_none.1 (hall k hk)]
  rw [if_pos hm, hq]
  simp [not_le.2 hq0]

end CropTrack

/-! ## Claim theorems -/

namespace CropTrack

/-- C1: for every feature map, `get_fallback_prediction` returns
`round(base * q * r * s * bulk, 2)` where `base` is the per-crop base
price (40.0 when the crop type is unknown), `q`, `r` and `s` are the
quality, region and season multipliers (1.0 outside their tables) and
`bulk` is the quantity-tier discount factor. -/
theorem spec_C1_fallback_formula (f : Features) :
    get_fallback_prediction f =
      round2 (((base_prices (f.crop_type.getD "Wheat")).getD 40)
        * ((quality_multiplier (f.quality.getD "Grade_A")).getD 1)
        * ((region_multiplier (f.region.getD "North")).getD 1)
        * ((season_multiplier (f.season.getD "Winter")).getD 1)
        * bulkFactor (f.quantity_kg.getD 1000)) := by
  rw [fallback_eq_bulkFactor]
  rfl

/-- C2: the bulk-discount factor inside `get_fallback_prediction` is
exactly 0.90 for quantities above 5000, exactly 0.95 on (2000, 5000] and
exactly 1.0 up to 2000; at the boundaries 5000 and 2000 it is 0.95
and 1.0. -/
theorem spec_C2_bulk_discount :
    (∀ f : Features, get_fallback_prediction f =
        round2 (preDiscountPrice f * bulkFactor (f.quantity_kg.getD 1000))) ∧
    (∀ q : ℚ, 5000 < q → bulkFactor q = 9/10) ∧
    (∀ q : ℚ, 2000 < q → q ≤ 5000 → bulkFactor q = 95/100) ∧
    (∀ q : ℚ, q ≤ 2000 → bulkFactor q = 1) ∧
    bulkFactor 5000 = 95/100 ∧ bulkFactor 2000 = 1 := by
  refine ⟨fallback_eq_bulkFactor, ?_, ?_, ?_, ?_, ?_⟩
  · intro q h
    simp [bulkFactor, h]
  · intro q h1 h2
    rw [bulkFactor, if_neg (not_lt.2 h2), if_pos h1]
  · intro q h
    rw [bulkFactor, if_neg (not_lt.2 (le_trans h (by norm_num))), if_neg (not_lt.2 h)]
  · norm_num [bulkFactor]
  · norm_num [bulkFactor]

/-- Closed instance of C2 at quantities 6000, 3500 and 100. -/
theorem spec_C2_witness :
    bulkFactor 6000 = 9/10 ∧ bulkFactor 3500 = 95/100 ∧ bulkFactor 100 = 1 :=
  ⟨spec_C2_bulk_discount.2.1 6000 (by norm_num),
   spec_C2_bulk_discount.2.2.1 3500 (by norm_num) (by norm_num),
   spec_C2_bulk_discount.2.2.2.1 100 (by norm_num)⟩

/-- C8: `get_fallback_prediction` is a pure function of its argument
(equal feature maps give equal prices), and its value depends only on the
`crop_type`, `quality`, `region`, `season` and `quantity_kg` entries: maps
agreeing there — whatever their `weather`, `market_demand`, `year` and
`month` — get the same price.  Statelessness holds by construction: the
embedding is a function with no state argument, faithful to the Python
code, which reads only its parameter and module-level constant tables. -/
theorem spec_C8_deterministic :
    (∀ f g : Features, f = g →
      get_fallback_prediction f = get_fallback_prediction g) ∧
    (∀ f g : Features, f.crop_type = g.crop_type → f.quality = g.quality →
      f.region = g.region → f.season = g.season → f.quantity_kg = g.quantity_kg →
      get_fallback_prediction f = get_fallback_prediction g) := by
  constructor
  · intro f g h
    rw [h]
  · intro f g h1 h2 h3 h4 h5
    simp only [get_fallback_prediction, h1, h2, h3, h4, h5]

/-- Closed instance of C8: `fRice1` and `fRice2` differ in `weather`,
`market_demand`, `year` and `month` but price identically. -/
theorem spec_C8_witness :
    get_fallback_prediction fRice1 = get_fallback_prediction fRice2 :=
  spec_C8_deterministic.2 fRice1 fRice2 rfl rfl rfl rfl rfl

/-- C9: the handler answers 400 with `success = false` exactly on an
absent/empty body, a missing required field, a quantity that `float()`
cannot convert, or a converted quantity ≤ 0; any other object body gets
200 with `success = true` — in particular quantities above the training
validator's 100000 bound are accepted. -/
theorem spec_C9_input_validation :
    (∀ data : Body,
      predict_price_route (some data) = ⟨400, false⟩ ↔
        data = [] ∨
        (∃ k ∈ required_fields, lookupField data k = none) ∨
        (lookupField data "quantity_kg").bind pyFloat = none ∨
        (∃ q, (lookupField data "quantity_kg").bind pyFloat = some q ∧ q ≤ 0)) ∧
    predict_price_route none = ⟨400, false⟩ ∧
    (∀ (data : Body) (q : ℚ),
      (∀ k ∈ required_fields, (lookupField data k).isSome = true) →
      (lookupField data "quantity_kg").bind pyFloat = some q →
      100000 < q →
      predict_price_route (some data) = ⟨200, true⟩) :=
  ⟨route400_iff, rfl,
   fun data q hall hq hgt => route_accepts data q hall hq (lt_trans (by norm_num) hgt)⟩

/-- Closed instance of C9: a body without `crop_type` is rejected, a
complete body with `quantity_kg = 200000` is accepted. -/
theorem spec_C9_witness :
    predict_price_route (some dMissing) = ⟨400, false⟩ ∧
    predict_price_route (some dBig) = ⟨200, true⟩ :=
  ⟨(spec_C9_input_validation.1 dMissing).mpr
      (Or.inr (Or.inl ⟨"crop_type", by decide, by decide⟩)),
   spec_C9_input_validation.2.2 dBig 200000 (by decide) (by decide) (by norm_num)⟩

end CropTrack

namespace CropTrack

/-- C4: the price-outlier check keeps exactly the rows whose price lies in
the closed interval `[Q1 - 1.5*IQR, Q3 + 1.5*IQR]` (rows without a price
compare false against both fences and are kept); every removed row lies
strictly outside. -/
theorem spec_C4_price_outliers (df : List Row) (r : Row) :
    r ∈ checkPriceOutliers df ↔ r ∈ df ∧
      ∀ p, r.market_price = some p → lowerBoundOf df ≤ p ∧ p ≤ upperBoundOf df :=
  mem_checkPriceOutliers

attribute [local semireducible] Rat.mul Rat.inv Rat.add Rat.sub in
/-- Closed instance of C4: with prices 50 and 100 the fences are
`[25, 125]` and the price-100 row survives. -/
theorem spec_C4_witness : rowP100 ∈ checkPriceOutliers dfPrices :=
  (spec_C4_price_outliers dfPrices rowP100).mpr
    ⟨by decide, fun p hp => by
      have hp100 : (100 : ℚ) = p := Option.some.inj hp
      rw [← hp100]
      exact ⟨by decide, by decide⟩⟩

/-- C6: the categorical check drops exactly the rows holding, in one of
the five vocabulary columns, a value outside that column's vocabulary
(a missing cell also fails `isin`); rows whose five cells all hold
vocabulary values pass unchanged. -/
theorem spec_C6_categorical (df : List Row) (r : Row) :
    r ∈ checkCategoricalValues df ↔ r ∈ df ∧
      validVocab r.crop_type valid_crop_types ∧
      validVocab r.region valid_regions ∧
      validVocab r.quality valid_qualities ∧
      validVocab r.season valid_seasons ∧
      validVocab r.market_demand valid_market_demands :=
  mem_checkCategoricalValues

/-- Closed instance of C6: a fully in-vocabulary wheat row survives. -/
theorem spec_C6_witness :
    wheatRow "2024-01-01" 10 ∈ checkCategoricalValues [wheatRow "2024-01-01" 10] :=
  (spec_C6_categorical [wheatRow "2024-01-01" 10] (wheatRow "2024-01-01" 10)).mpr
    ⟨by decide, ⟨"Wheat", rfl, by decide⟩, ⟨"North", rfl, by decide⟩,
      ⟨"Grade_A", rfl, by decide⟩, ⟨"Winter", rfl, by decide⟩, ⟨"Medium", rfl, by decide⟩⟩

/-- C7: the quantity check keeps exactly the rows with
`0 < quantity_kg ≤ 100000` (rows without a quantity compare false against
both fences and are kept), and kept rows are unchanged. -/
theorem spec_C7_quantity_range (df : List Row) (r : Row) :
    r ∈ checkQuantityValidity df ↔ r ∈ df ∧
      ∀ q, r.quantity_kg = some q → 0 < q ∧ q ≤ 100000 :=
  mem_checkQuantityValidity

/-- Closed instance of C7: a 10 kg row survives. -/
theorem spec_C7_witness :
    wheatRow "2024-01-01" 10 ∈ checkQuantityValidity [wheatRow "2024-01-01" 10] :=
  (spec_C7_quantity_range [wheatRow "2024-01-01" 10] (wheatRow "2024-01-01" 10)).mpr
    ⟨by decide, fun q hq => by
      have hq10 : (10 : ℚ) = q := Option.some.inj hq
      rw [← hq10]
      exact ⟨by decide, by decide⟩⟩

end CropTrack

namespace CropTrack

attribute [local semireducible] Rat.mul Rat.inv Rat.add Rat.sub in
/-- C3 counterexample: on `dfQty`, whose only missing value sits in the
numeric non-price column `quantity_kg`, the code imputes the column's mode
(700), while the rules claim C3 lists (median for the price column, mode
for categorical columns, `Unknown` for the fixed set, nothing else) leave
the frame unchanged — so the claimed rule set is not what the code
applies. -/
theorem spec_C3_counterexample :
    checkMissingValues dfQty ≠ some (claimImputeMissing dfQty) ∧
    checkMissingValues dfQty =
      some [{ rowQtyMissing with quantity_kg := some 700 }, rowQty700] ∧
    claimImputeMissing dfQty = dfQty :=
  ⟨by decide, by decide, by decide⟩

/-- C3 amended: whenever every mode-imputed column that has a missing cell
also has a non-missing one, `check_missing_values` imputes the price
column with its median, the fixed set `weather`/`market_demand`/`season`
with the literal `Unknown`, and **every** other column — the categorical
ones and also the numeric `quantity_kg` and the `date`/`source` strings —
with that column's mode. -/
theorem spec_C3_missing_imputation {df : List Row} (h : ModesAvailable df) :
    checkMissingValues df = some (amendedImputeMissing df) := by
  obtain ⟨h1, h2, h3, h4, h5, h6⟩ := h
  have a2 := modeAvailable_specFillMode (fun r => r.crop_type) (fun r => r.date) (fun r v => { r with date := some v }) (fun r v => rfl) h2
  have a3_0 := modeAvailable_specFillMode (fun r => r.region) (fun r => r.date) (fun r v => { r with date := some v }) (fun r v => rfl) h3
  have a3 := modeAvailable_specFillMode (fun r => r.region) (fun r => r.crop_type) (fun r v => { r with crop_type := some v }) (fun r v => rfl) a3_0
  have a4_0 := modeAvailable_specFillMode (fun r => r.quality) (fun r => r.date) (fun r v => { r with date := some v }) (fun r v => rfl) h4
  have a4_1 := modeAvailable_specFillMode (fun r => r.quality) (fun r => r.crop_type) (fun r v => { r with crop_type := some v }) (fun r v => rfl) a4_0
  have a4 := modeAvailable_specFillMode (fun r => r.quality) (fun r => r.region) (fun r v => { r with region := some v }) (fun r v => rfl) a4_1
  have a5_0 := modeAvailable_specFillMode (fun r => r.quantity_kg) (fun r => r.date) (fun r v => { r with date := some v }) (fun r v => rfl) h5
  have a5_1 := modeAvailable_specFillMode (fun r => r.quantity_kg) (fun r => r.crop_type) (fun r v => { r with crop_type := some v }) (fun r v => rfl) a5_0
  have a5_2 := modeAvailable_specFillMode (fun r => r.quantity_kg) (fun r => r.region) (fun r v => { r with region := some v }) (fun r v => rfl) a5_1
  have a5 := modeAvailable_specFillMode (fun r => r.quantity_kg) (fun r => r.quality) (fun r v => { r with quality := some v }) (fun r v => rfl) a5_2
  have a6_0 := modeAvailable_specFillMode (fun r => r.source) (fun r => r.date) (fun r v => { r with date := some v }) (fun r v => rfl) h6
  have a6_1 := modeAvailable_specFillMode (fun r => r.source) (fun r => r.crop_type) (fun r v => { r with crop_type := some v }) (fun r v => rfl) a6_0
  have a6_2 := modeAvailable_specFillMode (fun r => r.source) (fun r => r.region) (fun r v => { r with region := some v }) (fun r v => rfl) a6_1
  have a6_3 := modeAvailable_specFillMode (fun r => r.source) (fun r => r.quality) (fun r v => { r with quality := some v }) (fun r v => rfl) a6_2
  have a6_4 := modeAvailable_specFillMode (fun r => r.source) (fun r => r.quantity_kg) (fun r v => { r with quantity_kg := some v }) (fun r v => rfl) a6_3
  have a6_5 := modeAvailable_specFillMedian (fun r => r.source) (fun r v => rfl) a6_4
  have a6_6 := modeAvailable_specFillUnknown (fun r => r.source) (fun r => r.season) (fun r v => { r with season := some v }) (fun r v => rfl) a6_5
  have a6_7 := modeAvailable_specFillUnknown (fun r => r.source) (fun r => r.weather) (fun r v => { r with weather := some v }) (fun r v => rfl) a6_6
  have a6 := modeAvailable_specFillUnknown (fun r => r.source) (fun r => r.market_demand) (fun r v => { r with market_demand := some v }) (fun r v => rfl) a6_7
  unfold checkMissingValues amendedImputeMissing
  rw [fillModeCol_eq_spec _ _ h1]
  simp only [Option.bind_eq_bind, Option.some_bind]
  rw [fillModeCol_eq_spec _ _ a2]
  simp only [Option.bind_eq_bind, Option.some_bind]
  rw [fillModeCol_eq_spec _ _ a3]
  simp only [Option.bind_eq_bind, Option.some_bind]
  rw [fillModeCol_eq_spec _ _ a4]
  simp only [Option.bind_eq_bind, Option.some_bind]
  rw [fillModeCol_eq_spec _ _ a5]
  simp only [Option.bind_eq_bind, Option.some_bind]
  rw [fillMedianPrice_eq_spec, fillUnknownCol_eq_spec, fillUnknownCol_eq_spec,
    fillUnknownCol_eq_spec]
  rw [fillModeCol_eq_spec _ _ a6]
  simp only [Option.bind_eq_bind, Option.some_bind]
  rfl

attribute [local semireducible] Rat.mul Rat.inv Rat.add Rat.sub in
/-- Closed instance of amended C3 on `dfQty` (its missing `quantity_kg`
cell is imputed with the mode of that column). -/
theorem spec_C3_witness :
    checkMissingValues dfQty = some (amendedImputeMissing dfQty) :=
  spec_C3_missing_imputation (by decide)

end CropTrack

namespace CropTrack

attribute [local semireducible] Rat.mul Rat.inv Rat.add Rat.sub in
/-- C5 counterexample: on `dfOrder` the code-order pipeline (quantity and
categorical checks before the outlier check) first drops the two `Alien`
records and then, with fences collapsed to `[50, 50]`, also drops the
price-100 record; running the checks in the order claim C5 transcribes
(outliers before quantity and categorical) computes the fences while the
million-rupee `Alien` prices are still present and keeps the price-100
record — so `validate` does not apply the checks in the spec's listed
order. -/
theorem spec_C5_counterexample :
    validateClean dfOrder ≠ specOrderClean dfOrder ∧
    validateClean dfOrder =
      some [wheatRow "2024-01-01" 10, wheatRow "2024-01-02" 11, wheatRow "2024-01-03" 12,
        wheatRow "2024-01-04" 13, wheatRow "2024-01-05" 14] ∧
    specOrderClean dfOrder =
      some [wheatRow "2024-01-01" 10, wheatRow "2024-01-02" 11, wheatRow "2024-01-03" 12,
        wheatRow "2024-01-04" 13, wheatRow "2024-01-05" 14, rowP100] :=
  ⟨by decide, by decide, by decide⟩

/-- C5 amended: `validate` runs the checks in the order missing values,
duplicates, quantity range, categorical membership, price outliers (the
trailing distribution check never modifies the frame; it raises on an
empty frame, the final guard). -/
theorem spec_C5_check_order (df d : List Row) (h : checkMissingValues df = some d) :
    validateClean df =
      (if (checkPriceOutliers (checkCategoricalValues (checkQuantityValidity (checkDuplicates d)))).isEmpty
       then none
       else some (checkPriceOutliers (checkCategoricalValues (checkQuantityValidity (checkDuplicates d))))) := by
  unfold validateClean
  rw [h]
  rfl

attribute [local semireducible] Rat.mul Rat.inv Rat.add Rat.sub in
/-- Closed instance of amended C5 on `dfOrder` (which has no missing
cell). -/
theorem spec_C5_witness :
    validateClean dfOrder =
      (if (checkPriceOutliers (checkCategoricalValues (checkQuantityValidity (checkDuplicates dfOrder)))).isEmpty
       then none
       else some (checkPriceOutliers (checkCategoricalValues (checkQuantityValidity (checkDuplicates dfOrder))))) :=
  spec_C5_check_order dfOrder dfOrder (by decide)

end CropTrack

namespace CropTrack

attribute [local semireducible] Rat.mul Rat.inv Rat.add Rat.sub in
/-- C10: every row surviving the full pipeline holds vocabulary values in
`season` and `market_demand` — in particular never the imputed `Unknown`
and never a missing cell, so a row whose `season` or `market_demand` was
missing (imputed to `Unknown` by the missing-value step) is always dropped
by the categorical check; by contrast a row missing only `weather` is kept
with `weather = Unknown`, as `weather` has no vocabulary. -/
theorem spec_C10_unknown_dropped :
    (∀ (df out : List Row) (r : Row), validateClean df = some out → r ∈ out →
      (validVocab r.season valid_seasons ∧
        validVocab r.market_demand valid_market_demands) ∧
      (r.season ≠ some "Unknown" ∧ r.season ≠ none) ∧
      (r.market_demand ≠ some "Unknown" ∧ r.market_demand ≠ none)) ∧
    validateClean [rowWeatherNone] =
      some [{ rowWeatherNone with weather := some "Unknown" }] := by
  constructor
  · intro df out r hv hr
    unfold validateClean at hv
    cases hm : checkMissingValues df with
    | none =>
      rw [hm] at hv
      simp at hv
    | some d =>
      rw [hm] at hv
      simp only [Option.bind_eq_bind, Option.some_bind] at hv
      by_cases he : (checkPriceOutliers (checkCategoricalValues (checkQuantityValidity (checkDuplicates d)))).isEmpty = true
      · rw [if_pos he] at hv
        simp at hv
      · rw [if_neg he] at hv
        have hout := Option.some.inj hv
        subst hout
        have h1 := (mem_checkPriceOutliers.1 hr).1
        obtain ⟨hmem, hcrop, hreg, hqual, hseas, hdem⟩ := mem_checkCategoricalValues.1 h1
        refine ⟨⟨hseas, hdem⟩, ⟨?_, ?_⟩, ⟨?_, ?_⟩⟩
        · obtain ⟨v, hv1, hv2⟩ := hseas
          intro heq
          rw [heq] at hv1
          obtain rfl := Option.some.inj hv1
          exact absurd hv2 (by decide)
        · obtain ⟨v, hv1, _⟩ := hseas
          intro heq
          rw [heq] at hv1
          exact Option.noConfusion hv1
        · obtain ⟨v, hv1, hv2⟩ := hdem
          intro heq
          rw [heq] at hv1
          obtain rfl := Option.some.inj hv1
          exact absurd hv2 (by decide)
        · obtain ⟨v, hv1, _⟩ := hdem
          intro heq
          rw [heq] at hv1
          exact Option.noConfusion hv1
  · decide

/-- Closed instance of C10 at the one-row frame missing only `weather`:
the surviving imputed row keeps a vocabulary season and market demand. -/
theorem spec_C10_witness :
    (validVocab ({ rowWeatherNone with weather := some "Unknown" } : Row).season valid_seasons ∧
      validVocab ({ rowWeatherNone with weather := some "Unknown" } : Row).market_demand valid_market_demands) ∧
    (({ rowWeatherNone with weather := some "Unknown" } : Row).season ≠ some "Unknown" ∧
      ({ rowWeatherNone with weather := some "Unknown" } : Row).season ≠ none) ∧
    (({ rowWeatherNone with weather := some "Unknown" } : Row).market_demand ≠ some "Unknown" ∧
      ({ rowWeatherNone with weather := some "Unknown" } : Row).market_demand ≠ none) :=
  spec_C10_unknown_dropped.1 [rowWeatherNone]
    [{ rowWeatherNone with weather := some "Unknown" }]
    { rowWeatherNone with weather := some "Unknown" }
    spec_C10_unknown_dropped.2 (by decide)

end CropTrack
